import Mathlib

set_option maxRecDepth 8192
set_option linter.unusedVariables false

/-!
Shallow embedding of the `nostd-float-math-monitor` tool (src/src/main.rs).

The program is a build-time checker: it compiles a target crate twice
(emitting MIR and assembly), locates the single emitted artifact, scans it
line by line against a mode-specific forbidden-symbol regular expression,
and fails with a dedicated error kind when either scan finds a match.

Strings from the source are transcribed verbatim.  Lines of text are
modelled as `List Char` (the character sequence of the Rust `String`).
External effects (the compiler subprocess, the glob expansion of the
artifact pattern, reading the artifact file) enter the model as oracle
parameters; filesystem state is abstracted to the two pieces of state the
program manipulates: the process working directory and whether the
temporary build workspace directory exists.
-/

/-- Error kinds of the program, from the `error_chain!` block
(src/src/main.rs lines 22-31): the foreign links plus the implicit `Msg`
variant that `error_chain` always adds. -/
inductive ErrorKind where
  | Msg (s : String)
  | Glob
  | Pattern
  | Io
  | Regex
  | Utf8
  | StdFloatMath
deriving DecidableEq

/-- Emission modes, from `enum EmitType` (lines 33-37). -/
inductive EmitType where
  | Mir
  | Asm
deriving DecidableEq

/-- `const BUILD_TARGET: &str` (line 46). -/
def BUILD_TARGET : String := "x86_64-pc-windows-msvc"

/-- The `--emit` flag value per mode (lines 78-81). -/
def emit_flag : EmitType → String
  | .Asm => "asm"
  | .Mir => "mir"

/-- The artifact file extension per mode (lines 106-109). -/
def emit_ext : EmitType → String
  | .Asm => "s"
  | .Mir => "mir"

/-- The float-width alternation `(f32|f64)` shared by both patterns
(lines 230 and 234). -/
def floatWidths : List String := ["f32", "f64"]

/-- The function-name alternation of the MIR pattern, transcribed from the
regex literal on line 230. -/
def mirFnNames : List String :=
  ["abs", "abs_sub", "acos", "acosh", "asin", "asinh", "atan", "atan2",
   "atanh", "cbrt", "ceil", "copysign", "cos", "cosh", "div_euclid", "exp",
   "exp2", "exp_m1", "floor", "fract", "hypot", "ln", "ln_1p", "log",
   "log10", "log2", "mul_add", "powf", "powi", "rem_euclid", "round",
   "signum", "sin", "sin_cos", "sinh", "sqrt", "tan", "tanh", "trunc"]

/-- The function-name alternation of the ASM pattern, transcribed from the
regex literal on line 234. -/
def asmFnNames : List String :=
  ["abs", "abs_sub", "acos", "acosh", "asin", "asinh", "atan", "atan2",
   "atanh", "cbrt", "ceil", "copysign", "cos", "cosh", "div_euclid", "exp",
   "exp2", "exp_m1", "floor", "fract", "hypot", "ln", "ln_1p", "log",
   "log10", "log2", "mul_add", "powf", "powi", "rem_euclid", "round",
   "signum", "sin", "sin_cos", "sinh", "sqrt", "tan", "tanh", "trunc"]

/-- The function-name list as enumerated in the specification (spec.md
section 4.4).  Transcribed from the spec's words, to be compared with the
lists encoded in the source's patterns. -/
def specListedFnNames : List String :=
  ["abs", "abs_sub", "acos", "acosh", "asin", "asinh", "atan", "atan2",
   "atanh", "cbrt", "ceil", "copysign", "cos", "cosh", "div_euclid", "exp",
   "exp2", "exp_m1", "floor", "fract", "hypot", "ln", "ln_1p", "log",
   "log10", "log2", "mul_add", "powf", "powi", "rem_euclid", "round",
   "signum", "sin", "sin_cos", "sinh", "sqrt", "tan", "tanh", "trunc"]

/-- The MIR regex source string, transcribed verbatim from line 230. -/
def mirPatternStr : String :=
  "std::(f32|f64)::<impl \\1>::(abs|abs_sub|acos|acosh|asin|asinh|atan|atan2|atanh|cbrt|ceil|copysign|cos|cosh|div_euclid|exp|exp2|exp_m1|floor|fract|hypot|ln|ln_1p|log|log10|log2|mul_add|powf|powi|rem_euclid|round|signum|sin|sin_cos|sinh|sqrt|tan|tanh|trunc)"

/-- The ASM regex source string, transcribed verbatim from line 234. -/
def asmPatternStr : String :=
  "std::(f32|f64)::impl\\$[0-9]+::(abs|abs_sub|acos|acosh|asin|asinh|atan|atan2|atanh|cbrt|ceil|copysign|cos|cosh|div_euclid|exp|exp2|exp_m1|floor|fract|hypot|ln|ln_1p|log|log10|log2|mul_add|powf|powi|rem_euclid|round|signum|sin|sin_cos|sinh|sqrt|tan|tanh|trunc)"

/-- `line = pre ++ w ++ post`: the word `w` occurs as a contiguous
substring of the line.  This is what it means for the unanchored regex
search to have a candidate occurrence. -/
def containsSub (w line : List Char) : Prop :=
  ∃ pre post, line = pre ++ w ++ post

/-- The full text the MIR pattern requires at a match position: the
concatenation `std:: <width> ::<impl <width>> :: <fn>`, with the same
width in both places because of the `\1` backreference (line 230). -/
def mirWord (w f : String) : List Char :=
  "std::".toList ++ w.toList ++ "::<impl ".toList ++ w.toList ++ ">::".toList ++ f.toList

/-- Does the MIR pattern match starting exactly at the head of `cs`?
Since the function-name group is the last element of the pattern, the
regex matches here iff some width/function pair yields a literal word
that is a prefix of `cs`. -/
def mirMatchAt (cs : List Char) : Bool :=
  floatWidths.any fun w => mirFnNames.any fun f => (mirWord w f).isPrefixOf cs

/-- `stripHead p cs` removes the literal `p` from the head of `cs`,
returning the remainder, or `none` when `p` is not a prefix of `cs`. -/
def stripHead : List Char → List Char → Option (List Char)
  | [], cs => some cs
  | _ :: _, [] => none
  | p :: ps, c :: cs => if p = c then stripHead ps cs else none

/-- Does the ASM pattern match starting exactly at the head of `cs`?
Per line 234 the pattern is `std::(f32|f64)::impl\$[0-9]+::(fn|...)`:
a width, the literal `impl$`, one or more decimal digits, `::`, then a
function name.  Because `:` is not a digit, the backtracking semantics of
`[0-9]+::` coincide with taking the maximal digit run and then requiring
`::`. -/
def asmMatchAt (cs : List Char) : Bool :=
  floatWidths.any fun w =>
    match stripHead ("std::".toList ++ w.toList ++ "::impl$".toList) cs with
    | none => false
    | some r =>
        (!(r.takeWhile Char.isDigit).isEmpty) &&
          asmFnNames.any fun f =>
            (':' :: ':' :: f.toList).isPrefixOf (r.dropWhile Char.isDigit)

/-- Unanchored search: `fancy_regex`'s `captures(line).is_some()` is true
iff the pattern matches starting at some position of the line. -/
def searchLine (p : List Char → Bool) : List Char → Bool
  | [] => p []
  | c :: rest => p (c :: rest) || searchLine p rest

/-- Is-some of `mir_pattern.captures(line)` (lines 229-232 and 140). -/
def mirSearch (line : List Char) : Bool := searchLine mirMatchAt line

/-- Is-some of `asm_pattern.captures(line)` (lines 233-236 and 140). -/
def asmSearch (line : List Char) : Bool := searchLine asmMatchAt line

/-- Decimal digits of `n`, most significant first, via repeated division —
the standard decimal numeral used in `impl$<n>`.  Structural on a fuel
argument so that concrete instances reduce. -/
def natDecimalAux : Nat → Nat → List Char
  | 0, _ => []
  | fuel + 1, n =>
      if n < 10 then [Char.ofNat (48 + n)]
      else natDecimalAux fuel (n / 10) ++ [Char.ofNat (48 + n % 10)]

/-- Decimal numeral of `n` as a character list. -/
def natDecimal (n : Nat) : List Char := natDecimalAux (n + 1) n

/-- `fn std_math_used` (lines 135-149): scan the artifact's lines, return
whether any line matches the mode's pattern.  The `println!` diagnostics
do not affect the verdict. -/
def std_math_used (std_math_patterns : List Char → Bool) (lines : List String) : Bool :=
  lines.any fun line_content => std_math_patterns line_content.toList

/-- `fn clear_temp_dir` (lines 48-53): afterwards the build directory
does not exist (a failing removal would panic; removal success is
assumed in the model). -/
def clear_temp_dir (build_dir_exists : Bool) : Bool :=
  false

/-- Process state the program mutates: the working directory and whether
the temporary build workspace exists. -/
structure BuildState where
  cwd : String
  workspaceExists : Bool
deriving DecidableEq

/-- Oracle for `cmd.spawn()...wait()` (line 84): the spawn may fail, the
wait may fail, or the child exits with some status code. -/
inductive SpawnOutcome where
  | spawnErr
  | waitErr
  | exited (code : Int)
deriving DecidableEq

/-- Whether a build-driver step aborted the process (an `unwrap` panic)
or returned, with the process state at that point. -/
inductive BuildOutcome where
  | panicked (st : BuildState)
  | returned (st : BuildState)
deriving DecidableEq

/-- The argument list passed to the external compiler (lines 69-81). -/
def build_cmd_args (tested_features : List String) (build_dir : String) (emit_type : EmitType) : List String :=
  ["rustc", "--no-default-features"] ++
    tested_features.foldr (fun feature acc => "--features" :: feature :: acc) [] ++
    ["--target-dir", build_dir, "--target", BUILD_TARGET, "--", "--emit", emit_flag emit_type]

/-- Result of one `gen_compiled_file` invocation: the compiler command
line, the process state at the moment the compiler is invoked, and the
outcome. -/
structure BuildRun where
  compilerArgs : List String
  stateAtCompilerInvocation : BuildState
  outcome : BuildOutcome
deriving DecidableEq

/-- `fn gen_compiled_file` (lines 55-88): clear the workspace, change the
working directory to the tested crate, spawn `cargo rustc ...` and wait.
`spawn().unwrap()` and `wait().unwrap()` panic on spawn/wait failure; the
exit status returned by `wait()` is discarded.  On return the working
directory is set back to `this_crate_dir`; a successfully spawned
compiler has created the workspace as its `--target-dir` output root. -/
def gen_compiled_file (this_crate_dir tested_crate_dir : String)
    (tested_features : List String) (build_dir : String) (emit_type : EmitType)
    (st : BuildState) (spawn : SpawnOutcome) : BuildRun :=
  let ws0 := clear_temp_dir st.workspaceExists
  let stInvoke : BuildState := ⟨tested_crate_dir, ws0⟩
  { compilerArgs := build_cmd_args tested_features build_dir emit_type
    stateAtCompilerInvocation := stInvoke
    outcome :=
      match spawn with
      | .spawnErr => .panicked stInvoke
      | .waitErr => .panicked ⟨tested_crate_dir, true⟩
      | .exited _ => .returned ⟨this_crate_dir, true⟩ }

/-- Did the build-driver call abort the process? -/
def buildPanicked (r : BuildRun) : Bool :=
  match r.outcome with
  | .panicked _ => true
  | .returned _ => false

/-- The glob pattern built by `compiled_file` (lines 98-110):
`<base>/<target triple>/debug/deps/<package name>*.<ext>`.  `base` is
`this_crate_dir.join(build_dir)`, which equals the workspace path because
`build_dir` is absolute in `main`. -/
def emit_file_pat (base_dir tested_crate_name : String) (emit_type : EmitType) : String :=
  base_dir ++ "/" ++ BUILD_TARGET ++ "/debug/deps/" ++ tested_crate_name ++ "*." ++ emit_ext emit_type

/-- Outcome of the artifact locator: either the unique matching file (the
workspace untouched), or a fatal inconsistency, recording whether the
workspace still exists at the abort. -/
inductive LocateOutcome where
  | ok (workspaceExists : Bool) (file : String)
  | fatal (workspaceExists : Bool)
deriving DecidableEq

/-- `fn compiled_file` (lines 90-133): the glob expansion of
`emit_file_pat` is the oracle `globMatches`.  Exactly one match returns
that file; otherwise the workspace is cleared (line 128) and then
`assert!(files.len() == 1)` panics (line 129). -/
def compiled_file (workspaceExists : Bool) (globMatches : List String) : LocateOutcome :=
  match globMatches with
  | [f] => .ok workspaceExists f
  | _ => .fatal (clear_temp_dir workspaceExists)

/-- Outcome of one emission mode's run: a panic (aborting the process)
or a finish with the scan's `Result<bool>` — `Ok(found)` or an I/O error
reading the artifact. -/
inductive ModeOutcome where
  | panicked (st : BuildState)
  | finished (st : BuildState) (res : Except ErrorKind Bool)

/-- `fn test_asm_or_mir` (lines 151-171): build, locate the artifact,
scan it, then clear the workspace (line 169) and return the scan result —
the clearing happens whether the scan returned `Ok` or `Err`.  Oracles:
`spawn` for the compiler subprocess, `globMatches` for the artifact glob
expansion, `readLines` for reading the artifact (`none` = I/O error). -/
def test_asm_or_mir (this_crate_dir tested_crate_dir : String)
    (tested_features : List String) (build_dir : String) (emit_type : EmitType)
    (std_math_patterns : List Char → Bool) (st : BuildState) (spawn : SpawnOutcome)
    (globMatches : List String) (readLines : Option (List String)) : ModeOutcome :=
  let run := gen_compiled_file this_crate_dir tested_crate_dir tested_features build_dir emit_type st spawn
  match run.outcome with
  | .panicked s => .panicked s
  | .returned s =>
      match compiled_file s.workspaceExists globMatches with
      | .fatal ws => .panicked ⟨s.cwd, ws⟩
      | .ok ws _file =>
          let res : Except ErrorKind Bool :=
            match readLines with
            | none => .error .Io
            | some lines => .ok (std_math_used std_math_patterns lines)
          .finished ⟨s.cwd, clear_temp_dir ws⟩ res

/-- How the process ends: an `unwrap`/`assert` panic, an `Err` return
from `main`, or `Ok(())`. -/
inductive ProcOutcome where
  | panicked
  | errored (e : ErrorKind)
  | succeeded
deriving DecidableEq

/-- The tail of the supported-platform `main` (lines 245-286) given the
two mode runs: each run's result is `.unwrap()`ed (lines 254 and 265), so
a panic or an `Err` scan result aborts the process; with both verdicts in
hand, `main` returns the `StdFloatMath` error kind iff
`std_math_used_in_asm || std_math_used_in_mir` (lines 279-286). -/
def supported_main_after_runs (mirOut asmOut : ModeOutcome) : ProcOutcome :=
  match mirOut with
  | .panicked _ => .panicked
  | .finished _ (.error _) => .panicked
  | .finished _ (.ok std_math_used_in_mir) =>
      match asmOut with
      | .panicked _ => .panicked
      | .finished _ (.error _) => .panicked
      | .finished _ (.ok std_math_used_in_asm) =>
          if std_math_used_in_asm || std_math_used_in_mir then
            .errored .StdFloatMath
          else
            .succeeded

/-- The supported-platform `main` (lines 221-287): `std::env::current_dir()?`
can propagate an I/O error (`none` oracle); otherwise the two mode runs
decide the outcome. -/
def supported_main (current_dir : Option String) (mirOut asmOut : ModeOutcome) : ProcOutcome :=
  match current_dir with
  | none => .errored .Io
  | some _ => supported_main_after_runs mirOut asmOut

/-- Abstraction of one whole process run: how many Build Driver
invocations its body performs, and its returned result. -/
structure RunOutcome where
  buildsAttempted : Nat
  result : Except ErrorKind Unit

/-- The unsupported-platform `main` (lines 289-297): prints a notice and
returns `Err(ErrorKind::StdFloatMath(StdFloatMathUsedError))` — its body
contains no build invocation. -/
def unsupported_main : RunOutcome :=
  { buildsAttempted := 0
    result := .error .StdFloatMath }

/-- Model of the syntactic well-formedness conditions the external regex
engine (`fancy_regex::Regex::new`) checks on a pattern, restricted to the
constructs these two patterns use: parentheses must balance, a character
class must be closed, a quantifier must follow something quantifiable,
an escape must not be dangling, and a numeric backreference `\k` must
refer to a group already opened.  Structural on a fuel argument so that
concrete pattern strings reduce. -/
def regexScan : Nat → List Char → Nat → Nat → Bool → Bool
  | 0, _, _, _, _ => false
  | fuel + 1, cs, depth, groups, canQuant =>
      match cs with
      | [] => depth == 0
      | '\\' :: [] => false
      | '\\' :: c :: r =>
          if c.isDigit then
            decide (1 ≤ c.toNat - 48 ∧ c.toNat - 48 ≤ groups) && regexScan fuel r depth groups true
          else
            regexScan fuel r depth groups true
      | '(' :: r => regexScan fuel r (depth + 1) (groups + 1) false
      | ')' :: r => (depth != 0) && regexScan fuel r (depth - 1) groups true
      | '|' :: r => regexScan fuel r depth groups false
      | '[' :: r =>
          match r.dropWhile (fun c => c != ']') with
          | ']' :: r2 => regexScan fuel r2 depth groups true
          | _ => false
      | c :: r =>
          if c = '+' || c = '*' || c = '?' then
            canQuant && regexScan fuel r depth groups false
          else
            regexScan fuel r depth groups true

/-- A pattern string is syntactically well formed (the regex engine's
`new` returns `Ok`). -/
def regexSyntaxOk (pat : String) : Bool :=
  regexScan (pat.toList.length + 1) pat.toList 0 0 false

/-! ## Supporting lemmas -/

/-- If the pattern matches at the head of `rest`, the unanchored search
over `pre ++ rest` succeeds. -/
theorem searchLine_of_split (p : List Char → Bool) :
    ∀ (pre rest : List Char), p rest = true → searchLine p (pre ++ rest) = true := by
  intro pre
  induction pre with
  | nil =>
      intro rest h
      cases rest with
      | nil => simpa [searchLine] using h
      | cons c t => simp [searchLine, h]
  | cons a pre ih =>
      intro rest h
      simp [searchLine, ih rest h]

/-- Stripping a literal from a list that starts with it yields the rest. -/
theorem stripHead_append : ∀ (p r : List Char), stripHead p (p ++ r) = some r := by
  intro p
  induction p with
  | nil => intro r; rfl
  | cons c p ih => intro r; simp [stripHead, ih]

/-- A list is a Boolean prefix of itself followed by anything. -/
theorem isPrefixOf_append_self : ∀ (l t : List Char), l.isPrefixOf (l ++ t) = true := by
  intro l t
  induction l with
  | nil => simp
  | cons a l ih => simp [List.isPrefixOf_cons₂, ih]

/-- `takeWhile`/`dropWhile` on a block satisfying the predicate followed
by a failing character split exactly at that character. -/
theorem takeWhile_all_append (p : Char → Bool) :
    ∀ (ds : List Char) (c : Char) (t : List Char),
      (∀ x ∈ ds, p x = true) → p c = false →
      (ds ++ c :: t).takeWhile p = ds ∧ (ds ++ c :: t).dropWhile p = c :: t := by
  intro ds
  induction ds with
  | nil => intro c t _ hc; simp [List.takeWhile, List.dropWhile, hc]
  | cons d ds ih =>
      intro c t hall hc
      have hd : p d = true := hall d (by simp)
      have hrec := ih c t (fun x hx => hall x (by simp [hx])) hc
      simp [List.takeWhile, List.dropWhile, hd, hrec.1, hrec.2]

/-- The character of a decimal digit is a digit character. -/
theorem digitChar_isDigit : ∀ d : Nat, d < 10 → (Char.ofNat (48 + d)).isDigit = true := by
  intro d hd
  interval_cases d <;> decide

/-- With enough fuel, the decimal numeral is nonempty and all digits. -/
theorem natDecimalAux_spec : ∀ (fuel n : Nat), n < fuel →
    natDecimalAux fuel n ≠ [] ∧ ∀ c ∈ natDecimalAux fuel n, c.isDigit = true := by
  intro fuel
  induction fuel with
  | zero => intro n h; exact absurd h (Nat.not_lt_zero n)
  | succ fuel ih =>
      intro n h
      by_cases h10 : n < 10
      · refine ⟨by simp [natDecimalAux, h10], ?_⟩
        intro c hc
        simp [natDecimalAux, h10] at hc
        subst hc
        exact digitChar_isDigit n h10
      · have hdiv : n / 10 < fuel := by
          have : n / 10 < n := Nat.div_lt_self (by omega) (by omega)
          omega
        have hrec := ih (n / 10) hdiv
        refine ⟨by simp [natDecimalAux, h10], ?_⟩
        intro c hc
        simp [natDecimalAux, h10] at hc
        rcases hc with hc | hc
        · exact hrec.2 c hc
        · subst hc
          exact digitChar_isDigit (n % 10) (Nat.mod_lt n (by omega))

/-- The decimal numeral of any natural number is nonempty and consists of
digit characters only. -/
theorem natDecimal_spec (n : Nat) :
    natDecimal n ≠ [] ∧ ∀ c ∈ natDecimal n, c.isDigit = true :=
  natDecimalAux_spec (n + 1) n (Nat.lt_succ_self n)

/-- The MIR pattern matches at a position that starts with a full
width-agreeing word, whatever follows. -/
theorem mirMatchAt_append (w f : String) (hw : w ∈ floatWidths) (hf : f ∈ mirFnNames)
    (rest : List Char) : mirMatchAt (mirWord w f ++ rest) = true := by
  unfold mirMatchAt
  refine List.any_eq_true.mpr ⟨w, hw, ?_⟩
  refine List.any_eq_true.mpr ⟨f, hf, ?_⟩
  exact isPrefixOf_append_self _ _

/-- The ASM pattern matches at a position that starts with
`std::f64::impl$<digits>::<fn>` for any nonempty digit run and listed
function name, whatever follows. -/
theorem asmMatchAt_append (ds : List Char) (f : String)
    (hds : ds ≠ []) (hdig : ∀ c ∈ ds, c.isDigit = true) (hf : f ∈ asmFnNames)
    (rest : List Char) :
    asmMatchAt ("std::f64::impl$".toList ++ ds ++ ':' :: ':' :: f.toList ++ rest) = true := by
  unfold asmMatchAt
  refine List.any_eq_true.mpr ⟨"f64", by decide, ?_⟩
  have hlit : ("std::".toList ++ "f64".toList ++ "::impl$".toList : List Char)
      = "std::f64::impl$".toList := by decide
  rw [hlit]
  have harr : "std::f64::impl$".toList ++ ds ++ ':' :: ':' :: f.toList ++ rest
      = "std::f64::impl$".toList ++ (ds ++ ':' :: ':' :: (f.toList ++ rest)) := by
    simp [List.append_assoc]
  rw [harr, stripHead_append]
  have htk := takeWhile_all_append Char.isDigit ds ':' (':' :: (f.toList ++ rest)) hdig (by decide)
  have hne : ds.isEmpty = false := by
    cases ds with
    | nil => exact absurd rfl hds
    | cons a t => rfl
  simp only [htk.1, htk.2, hne]
  refine List.any_eq_true.mpr ⟨f, hf, ?_⟩
  have hsh : (':' :: ':' :: (f.toList ++ rest)) = (':' :: ':' :: f.toList) ++ rest := by simp
  rw [hsh]
  exact isPrefixOf_append_self _ _

/-! ## Claim theorems -/

/-- C1: for every pair of per-mode scan verdicts, the supported-platform
`main` fails with the `StdFloatMath` error kind iff the combined verdict
`mir OR asm` is true, succeeds iff it is false, and the combination is
the logical OR, independent of the order in which the two verdicts are
combined. -/
theorem c1_final_verdict_or :
    ∀ (s1 s2 : BuildState) (m a : Bool),
      (supported_main_after_runs (.finished s1 (.ok m)) (.finished s2 (.ok a))
          = .errored .StdFloatMath ↔ (m || a) = true)
      ∧ (supported_main_after_runs (.finished s1 (.ok m)) (.finished s2 (.ok a))
          = .succeeded ↔ (m || a) = false)
      ∧ (m || a) = (a || m)
      ∧ supported_main_after_runs (.finished s1 (.ok m)) (.finished s2 (.ok a))
          = supported_main_after_runs (.finished s2 (.ok a)) (.finished s1 (.ok m)) := by
  intro s1 s2 m a
  cases m <;> cases a <;> simp [supported_main_after_runs]

/-- C1 witness: with verdicts (MIR true, ASM false) the process returns
the `StdFloatMath` error kind. -/
theorem c1_final_verdict_or_witness :
    supported_main_after_runs (.finished ⟨"/m", false⟩ (.ok true)) (.finished ⟨"/m", false⟩ (.ok false))
      = .errored .StdFloatMath :=
  (c1_final_verdict_or ⟨"/m", false⟩ ⟨"/m", false⟩ true false).1.mpr rfl

/-- C2 counterexample: the claim universally quantifies "a line containing
`std::f32::<impl f64>::sqrt` does not match" over all scanned lines, but a
line that contains that mismatched text and, elsewhere, a width-agreeing
occurrence does match the MIR pattern. -/
theorem c2_containing_mismatch_can_match :
    containsSub ("std::f32::<impl f64>::sqrt".toList)
        ("std::f32::<impl f64>::sqrt and std::f32::<impl f32>::sqrt".toList)
      ∧ mirSearch ("std::f32::<impl f64>::sqrt and std::f32::<impl f32>::sqrt".toList) = true := by
  constructor
  · exact ⟨[], " and std::f32::<impl f32>::sqrt".toList, by decide⟩
  · decide

/-- C2 (amended): every line containing `std::f32::<impl f32>::sqrt`
matches the MIR pattern, and the synthetic line consisting exactly of
`std::f32::<impl f64>::sqrt` (mismatched widths) does not match — the
`\1` backreference requires width agreement. -/
theorem c2_width_agreement :
    (∀ line : List Char, containsSub ("std::f32::<impl f32>::sqrt".toList) line →
        mirSearch line = true)
    ∧ mirSearch ("std::f32::<impl f64>::sqrt".toList) = false := by
  constructor
  · rintro line ⟨pre, post, rfl⟩
    unfold mirSearch
    rw [List.append_assoc]
    apply searchLine_of_split
    have hword : ("std::f32::<impl f32>::sqrt".toList : List Char) = mirWord "f32" "sqrt" := by
      decide
    rw [hword]
    exact mirMatchAt_append "f32" "sqrt" (by decide) (by decide) post
  · decide

/-- C2 witness: a line with surrounding text around the width-agreeing
occurrence matches. -/
theorem c2_width_agreement_witness :
    mirSearch ("xx std::f32::<impl f32>::sqrt yy".toList) = true :=
  c2_width_agreement.1 _ ⟨"xx ".toList, " yy".toList, by decide⟩

/-- C3: for every non-negative decimal index `n` and every listed
function name, any line containing `std::f64::impl$<n>::<fn>` matches the
ASM pattern — the numbered impl-block index is unconstrained. -/
theorem c3_asm_any_impl_index :
    ∀ (n : Nat) (f : String), f ∈ asmFnNames →
      ∀ line : List Char,
        containsSub ("std::f64::impl$".toList ++ natDecimal n ++ ':' :: ':' :: f.toList) line →
        asmSearch line = true := by
  rintro n f hf line ⟨pre, post, rfl⟩
  unfold asmSearch
  rw [List.append_assoc]
  apply searchLine_of_split
  have hspec := natDecimal_spec n
  have h := asmMatchAt_append (natDecimal n) f hspec.1 hspec.2 hf post
  simpa [List.append_assoc] using h

/-- C3 witness: `std::f64::impl$17::sin`, `std::f64::impl$0::sin` and
`std::f64::impl$3::sin` all match the ASM pattern. -/
theorem c3_asm_any_impl_index_witness :
    asmSearch ("std::f64::impl$17::sin".toList) = true ∧
    asmSearch ("std::f64::impl$0::sin".toList) = true ∧
    asmSearch ("std::f64::impl$3::sin".toList) = true :=
  ⟨c3_asm_any_impl_index 17 "sin" (by decide) _ ⟨[], [], by decide⟩,
   c3_asm_any_impl_index 0 "sin" (by decide) _ ⟨[], [], by decide⟩,
   c3_asm_any_impl_index 3 "sin" (by decide) _ ⟨[], [], by decide⟩⟩

/-- C4 counterexample: the function-name list encoded in the patterns
does not have 30 elements. -/
theorem c4_not_thirty_names : mirFnNames.length ≠ 30 := by decide

/-- C4 (amended): both the MIR and the ASM pattern strings encode the
same fixed function-name alternation; it is exactly the list the spec
enumerates, and it has 39 names (not 30). -/
theorem c4_fn_name_list :
    mirPatternStr = "std::(f32|f64)::<impl \\1>::(" ++ String.intercalate "|" mirFnNames ++ ")"
    ∧ asmPatternStr = "std::(f32|f64)::impl\\$[0-9]+::(" ++ String.intercalate "|" asmFnNames ++ ")"
    ∧ mirFnNames = asmFnNames
    ∧ mirFnNames = specListedFnNames
    ∧ mirFnNames.length = 39 :=
  ⟨by decide, by decide, by decide, by decide, by decide⟩

/-- C5 counterexample: a compiler run that exits with status 1 does not
panic the Build Driver — `wait()`'s exit status is discarded — and the
mode run proceeds past the failed build into the locator and scanner. -/
theorem c5_nonzero_exit_not_fatal :
    buildPanicked (gen_compiled_file "/monitor" "/tested" [] "/monitor/tmp" .Mir ⟨"/monitor", false⟩ (.exited 1)) = false
    ∧ test_asm_or_mir "/monitor" "/tested" [] "/monitor/tmp" .Mir mirSearch ⟨"/monitor", false⟩
        (.exited 1) ["/monitor/tmp/a.mir"] (some [])
        = .finished ⟨"/monitor", false⟩ (.ok false) :=
  ⟨rfl, rfl⟩

/-- C5 (amended): a spawn failure (and a failure of `wait` itself) is
process-fatal, but the compiler's exit status is never inspected: for
every exit code, including non-zero ones, the Build Driver returns and
detection proceeds. -/
theorem c5_spawn_fatal_exit_ignored :
    ∀ (this_crate_dir tested_crate_dir : String) (tested_features : List String)
      (build_dir : String) (emit_type : EmitType) (st : BuildState),
      buildPanicked (gen_compiled_file this_crate_dir tested_crate_dir tested_features build_dir emit_type st .spawnErr) = true
      ∧ buildPanicked (gen_compiled_file this_crate_dir tested_crate_dir tested_features build_dir emit_type st .waitErr) = true
      ∧ ∀ code : Int,
          buildPanicked (gen_compiled_file this_crate_dir tested_crate_dir tested_features build_dir emit_type st (.exited code)) = false :=
  fun _ _ _ _ _ _ => ⟨rfl, rfl, fun _ => rfl⟩

/-- C6 counterexample: the unsupported-platform `main` returns the very
same `StdFloatMath` error kind that the forbidden-usage path returns: the
two conditions do not carry distinct error identities. -/
theorem c6_same_error_identity :
    unsupported_main.result = Except.error ErrorKind.StdFloatMath
    ∧ supported_main_after_runs (.finished ⟨"/monitor", false⟩ (.ok true))
        (.finished ⟨"/monitor", false⟩ (.ok true)) = .errored .StdFloatMath :=
  ⟨rfl, rfl⟩

/-- C6 (amended): on an unsupported platform the program reports the
condition without attempting any build, but it reuses the `StdFloatMath`
error identity of the forbidden-usage report rather than a distinct one. -/
theorem c6_unsupported_platform_guard :
    unsupported_main.buildsAttempted = 0
    ∧ unsupported_main.result = Except.error ErrorKind.StdFloatMath :=
  ⟨rfl, rfl⟩

/-- C7: the Artifact Locator returns a path iff the glob expansion has
exactly one match (and then returns that match, leaving the workspace
untouched); with zero or several matches it clears the workspace and then
aborts; and the glob pattern has the shape
`<workspace>/<target triple>/debug/deps/<package name>*.<ext>` with
extension `mir` or `s` by mode. -/
theorem c7_artifact_locator :
    ∀ (workspaceExists : Bool) (globMatches : List String),
      ((∃ f, compiled_file workspaceExists globMatches = .ok workspaceExists f ∧ globMatches = [f])
        ↔ globMatches.length = 1)
      ∧ (globMatches.length ≠ 1 → compiled_file workspaceExists globMatches = .fatal false)
      ∧ emit_file_pat "/w" "pkg" .Mir = "/w/x86_64-pc-windows-msvc/debug/deps/pkg*.mir"
      ∧ emit_file_pat "/w" "pkg" .Asm = "/w/x86_64-pc-windows-msvc/debug/deps/pkg*.s" := by
  intro ws ms
  refine ⟨?_, ?_, by decide, by decide⟩
  · constructor
    · rintro ⟨f, _, rfl⟩
      rfl
    · intro h
      match ms, h with
      | [f], _ => exact ⟨f, rfl, rfl⟩
  · intro h
    match ms, h with
    | [], _ => rfl
    | a :: b :: t, _ => rfl
    | [a], h => exact absurd rfl h

/-- C7 witness: a singleton glob result succeeds; an empty one fails with
the workspace cleared. -/
theorem c7_artifact_locator_witness :
    (∃ f, compiled_file false ["/w/a.mir"] = .ok false f ∧ ["/w/a.mir"] = [f])
    ∧ compiled_file false [] = .fatal false :=
  ⟨(c7_artifact_locator false ["/w/a.mir"]).1.mpr rfl,
   (c7_artifact_locator false []).2.1 (by decide)⟩

/-- C8: at the moment the Build Driver invokes the compiler the workspace
does not exist (any stale directory was cleared first), and whenever a
mode run finishes — the scan having returned either `Ok` or an error —
the workspace has been deleted. -/
theorem c8_workspace_lifecycle :
    ∀ (this_crate_dir tested_crate_dir : String) (tested_features : List String)
      (build_dir : String) (emit_type : EmitType) (std_math_patterns : List Char → Bool)
      (st : BuildState) (spawn : SpawnOutcome) (globMatches : List String)
      (readLines : Option (List String)) (st' : BuildState) (res : Except ErrorKind Bool),
      ((gen_compiled_file this_crate_dir tested_crate_dir tested_features build_dir emit_type st spawn).stateAtCompilerInvocation.workspaceExists = false)
      ∧ (test_asm_or_mir this_crate_dir tested_crate_dir tested_features build_dir emit_type
            std_math_patterns st spawn globMatches readLines = .finished st' res →
          st'.workspaceExists = false) := by
  intro this tested feats bld e pat st spawn gm rl st' res
  constructor
  · rfl
  · intro h
    cases spawn with
    | spawnErr => simp [test_asm_or_mir, gen_compiled_file] at h
    | waitErr => simp [test_asm_or_mir, gen_compiled_file] at h
    | exited code =>
        match gm, h with
        | [], h => simp [test_asm_or_mir, gen_compiled_file, compiled_file] at h
        | a :: b :: t, h => simp [test_asm_or_mir, gen_compiled_file, compiled_file] at h
        | [f], h =>
            simp [test_asm_or_mir, gen_compiled_file, compiled_file, clear_temp_dir] at h
            obtain ⟨hst, -⟩ := h
            rw [← hst]

/-- C8 witness: a concrete run in which the workspace pre-exists is
cleared before the compiler is invoked, and a finished run ends with the
workspace deleted. -/
theorem c8_workspace_lifecycle_witness :
    ((gen_compiled_file "/m" "/t" [] "/b" .Mir ⟨"/m", true⟩ (.exited 0)).stateAtCompilerInvocation.workspaceExists = false)
    ∧ ((⟨"/m", false⟩ : BuildState).workspaceExists = false) :=
  ⟨(c8_workspace_lifecycle "/m" "/t" [] "/b" .Mir mirSearch ⟨"/m", true⟩ (.exited 0)
      ["/b/a.mir"] (some []) ⟨"/m", false⟩ (.ok false)).1,
   (c8_workspace_lifecycle "/m" "/t" [] "/b" .Mir mirSearch ⟨"/m", true⟩ (.exited 0)
      ["/b/a.mir"] (some []) ⟨"/m", false⟩ (.ok false)).2 rfl⟩

/-- C9: every Build Driver invocation runs the compiler with the working
directory set to the tested crate's root, and on every completed
invocation — whatever the exit status — restores the working directory to
the original directory it was given. -/
theorem c9_cwd_change_restore :
    ∀ (this_crate_dir tested_crate_dir : String) (tested_features : List String)
      (build_dir : String) (emit_type : EmitType) (st : BuildState) (spawn : SpawnOutcome),
      (gen_compiled_file this_crate_dir tested_crate_dir tested_features build_dir emit_type st spawn).stateAtCompilerInvocation.cwd = tested_crate_dir
      ∧ ∀ code : Int,
          (gen_compiled_file this_crate_dir tested_crate_dir tested_features build_dir emit_type st (.exited code)).outcome
            = .returned ⟨this_crate_dir, true⟩ :=
  fun _ _ _ _ _ _ _ => ⟨rfl, fun _ => rfl⟩

/-- C10: both hard-coded pattern strings satisfy the modelled
well-formedness conditions of the regex engine (so `Regex::new(...).unwrap()`
does not panic), and no outcome of either `main` variant carries the
`Regex` (pattern-compilation) error kind. -/
theorem c10_patterns_compile :
    regexSyntaxOk mirPatternStr = true
    ∧ regexSyntaxOk asmPatternStr = true
    ∧ (∀ (current_dir : Option String) (mirOut asmOut : ModeOutcome),
        supported_main current_dir mirOut asmOut ≠ .errored .Regex)
    ∧ unsupported_main.result ≠ Except.error ErrorKind.Regex := by
  refine ⟨by decide, by decide, ?_, by simp [unsupported_main]⟩
  intro cd mo ao
  cases cd with
  | none => simp [supported_main]
  | some d =>
      cases mo with
      | panicked s => simp [supported_main, supported_main_after_runs]
      | finished s r =>
          cases r with
          | error e => simp [supported_main, supported_main_after_runs]
          | ok b =>
              cases ao with
              | panicked s2 => simp [supported_main, supported_main_after_runs]
              | finished s2 r2 =>
                  cases r2 with
                  | error e2 => simp [supported_main, supported_main_after_runs]
                  | ok b2 =>
                      cases b <;> cases b2 <;> simp [supported_main, supported_main_after_runs]

/-- C10 witness: a concrete supported-platform run does not end with the
`Regex` error kind. -/
theorem c10_patterns_compile_witness :
    supported_main (some "/m") (ModeOutcome.finished ⟨"/m", false⟩ (Except.ok false))
        (ModeOutcome.finished ⟨"/m", false⟩ (Except.ok false)) ≠ ProcOutcome.errored ErrorKind.Regex :=
  c10_patterns_compile.2.2.1 (some "/m") _ _
